import Mathlib

/-!
Verification of the inventory forecasting and supplier-ranking core
(`inventory.py`) against its design specification.

Python floats are modelled as exact rationals (`ℚ`); Python `int(x)`
truncation toward zero is `pyTrunc`.  Python's `requests` layer is
modelled by an explicit `HttpOutcome` environment passed to the weather
lookup: a raised exception is `Except.error`, so exception propagation
is visible in the return type of `get_forecast`.
-/

namespace Inventory

/-- Python `int(x)`: truncation toward zero of a rational. -/
def pyTrunc (q : ℚ) : ℤ := if 0 ≤ q then ⌊q⌋ else ⌈q⌉

/-- The fields of the parsed OpenWeatherMap JSON body that
`get_weather_forecast` reads; `none` models an absent key
(indexing an absent key raises `KeyError`). -/
structure JsonData where
  message : Option String
  mainTemp : Option ℚ
  mainHumidity : Option ℚ
  weatherMain : Option String
  weatherDescr : Option String
  deriving DecidableEq

/-- Outcome of the HTTP layer (`requests.get` followed by `response.json()`)
for a given request: either a raised exception (connection error,
non-JSON body, ...) or a parsed JSON response with a status code. -/
inductive HttpOutcome where
  | networkError (msg : String)
  | response (statusCode : ℤ) (data : JsonData)

/-- The dictionary returned by `get_weather_forecast` on a non-raising
path: either the `{"error": msg}` dictionary (no `"temperature"` key)
or the weather dictionary with a `"temperature"` key. -/
inductive WeatherDict where
  | errorDict (msg : String)
  | weatherDict (temperature humidity : ℚ) (main descr : String)
  deriving DecidableEq

/-- Embeds `get_weather_forecast(location)` from `inventory.py`, as a function of
the HTTP layer's outcome for the request it issues.  A raised exception
is `Except.error`.  On a non-200 response it returns the
`{"error": data.get("message", "Failed to fetch weather")}` dictionary;
on a 200 response it builds the weather dictionary from
`data["main"]["temp"]`, `data["main"]["humidity"]`, `data["weather"][0]`,
raising `KeyError` if a key is absent. -/
def get_weather_forecast (o : HttpOutcome) : Except String WeatherDict :=
  match o with
  | .networkError msg => .error msg
  | .response statusCode data =>
    if statusCode ≠ 200 then
      .ok (.errorDict (data.message.getD "Failed to fetch weather"))
    else
      match data.mainTemp, data.mainHumidity, data.weatherMain, data.weatherDescr with
      | some t, some h, some m, some d => .ok (.weatherDict t h m d)
      | _, _, _, _ => .error "KeyError"

/-- The `Product` class.  `sales_history` entries are
(timestamp, quantity) pairs; timestamps are opaque naturals. -/
structure Product where
  id : String
  name : String
  shelf_life_days : ℤ
  category : Option String
  inventory : ℤ
  sales_history : List (ℕ × ℤ)
  deriving DecidableEq

/-- Embeds `Product.__init__(id, name, shelf_life_days, category=None)`. -/
def mkProduct (id name : String) (shelf_life_days : ℤ)
    (category : Option String := none) : Product :=
  { id := id, name := name, shelf_life_days := shelf_life_days,
    category := category, inventory := 0, sales_history := [] }

/-- Embeds `Product.add_sale(quantity)`: appends `(datetime.now(), quantity)` to
the history and decrements inventory; the timestamp is a parameter. -/
def add_sale (p : Product) (now : ℕ) (quantity : ℤ) : Product :=
  { p with sales_history := p.sales_history ++ [(now, quantity)],
           inventory := p.inventory - quantity }

/-- Embeds `self.sales_history[-30:]`: the last `min(30, len)` entries. -/
def recentSales (p : Product) : List (ℕ × ℤ) :=
  p.sales_history.drop (p.sales_history.length - 30)

/-- The daily average of the recent window, trend-adjusted exactly when
the window has at least 14 entries, mirroring the body of
`get_forecast` up to the buffer factor. -/
def avgWithTrend (recent : List (ℕ × ℤ)) : ℚ :=
  let total_sales : ℤ := (recent.map (fun s => s.2)).sum
  let avg_sales : ℚ := (total_sales : ℚ) / (recent.length : ℚ)
  if 14 ≤ recent.length then
    let first_half : ℤ := ((recent.take (recent.length / 2)).map (fun s => s.2)).sum
    let second_half : ℤ := ((recent.drop (recent.length / 2)).map (fun s => s.2)).sum
    let trend_factor : ℚ := if 0 < first_half then (second_half : ℚ) / (first_half : ℚ) else 1
    avg_sales * trend_factor
  else
    avg_sales

/-- Embeds `buffer_factor`: `1.2` if `days > self.shelf_life_days`, else `1.1`. -/
def bufferFactor (p : Product) (days : ℤ) : ℚ :=
  if p.shelf_life_days < days then 12/10 else 11/10

/-- Embeds `forecast = int(avg_sales * days * buffer_factor)` before any weather
adjustment and before the `max(1, ...)` clamp. -/
def forecastPre (p : Product) (days : ℤ) : ℤ :=
  pyTrunc (avgWithTrend (recentSales p) * (days : ℚ) * bufferFactor p days)

/-- Python truthiness of the `location` argument: `if location:` is
false for `None` and for the empty string. -/
def locTruthy : Option String → Bool
  | none => false
  | some s => s ≠ ""

/-- The weather adjustment applied to `forecast` once a weather
dictionary came back: if it has a `"temperature"` key, the temperature
exceeds 30 and the lower-cased product name is `"ice cream"` or
`"juice"`, multiply by 1.2 and truncate; otherwise leave unchanged. -/
def weatherAdjust (p : Product) (w : WeatherDict) (forecast : ℤ) : ℤ :=
  match w with
  | .errorDict _ => forecast
  | .weatherDict temp _ _ _ =>
    if 30 < temp ∧ (p.name.toLower = "ice cream" ∨ p.name.toLower = "juice") then
      pyTrunc ((forecast : ℚ) * (12/10))
    else forecast

/-- Embeds `Product.get_forecast(days, location=None)`.  The HTTP layer is the
environment `env`; a raised exception surfaces as `Except.error`. -/
def get_forecast (p : Product) (days : ℤ) (location : Option String)
    (env : String → HttpOutcome) : Except String ℤ :=
  if p.sales_history = [] then .ok 0
  else if recentSales p = [] then .ok 0
  else
    let forecast := forecastPre p days
    if locTruthy location then
      match get_weather_forecast (env (location.getD "")) with
      | .error e => .error e
      | .ok w => .ok (max 1 (weatherAdjust p w forecast))
    else
      .ok (max 1 forecast)

/-- Embeds `Product.get_forecast(days)` with no location: the pure path. -/
def get_forecast_noloc (p : Product) (days : ℤ) : ℤ :=
  if p.sales_history = [] then 0
  else if recentSales p = [] then 0
  else max 1 (forecastPre p days)

/-- Embeds `Product.get_recommended_order(days)`.  Its `forecast` is
`get_forecast(days)` (no location, hence pure). -/
def get_recommended_order (p : Product) (days : ℤ) : ℤ :=
  let forecast := get_forecast_noloc p days
  let current_stock_days : ℚ :=
    if 0 < forecast then (p.inventory : ℚ) / ((forecast : ℚ) / (days : ℚ)) else 0
  if (days : ℚ) ≤ current_stock_days then 0
  else
    let recommended_order : ℚ := (forecast : ℚ) - (p.inventory : ℚ)
    let max_order : ℚ := (forecast : ℚ) * ((p.shelf_life_days : ℚ) / (days : ℚ))
    max 0 (pyTrunc (min recommended_order max_order))

/-- The `Supplier` class: three parallel observation lists. -/
structure Supplier where
  id : String
  name : String
  delivery_timelines : List ℚ
  costs : List ℚ
  quality_ratings : List ℚ
  deriving DecidableEq

/-- Embeds `Supplier.__init__(id, name)`. -/
def mkSupplier (id name : String) : Supplier :=
  { id := id, name := name, delivery_timelines := [],
    costs := [], quality_ratings := [] }

/-- Embeds `Supplier.record_delivery(delivery_days, cost, quality_rating)`. -/
def record_delivery (s : Supplier) (delivery_days cost quality_rating : ℚ) : Supplier :=
  { s with delivery_timelines := s.delivery_timelines ++ [delivery_days],
           costs := s.costs ++ [cost],
           quality_ratings := s.quality_ratings ++ [quality_rating] }

/-- Embeds `Supplier.average_delivery_time`: `None` on an empty list, else the mean. -/
def average_delivery_time (s : Supplier) : Option ℚ :=
  if s.delivery_timelines = [] then none
  else some (s.delivery_timelines.sum / (s.delivery_timelines.length : ℚ))

/-- Embeds `Supplier.average_cost`: `None` on an empty list, else the mean. -/
def average_cost (s : Supplier) : Option ℚ :=
  if s.costs = [] then none
  else some (s.costs.sum / (s.costs.length : ℚ))

/-- Embeds `Supplier.average_quality`: `None` on an empty list, else the mean. -/
def average_quality (s : Supplier) : Option ℚ :=
  if s.quality_ratings = [] then none
  else some (s.quality_ratings.sum / (s.quality_ratings.length : ℚ))

/-- Python `x or 0` applied to an optional average: `None` becomes `0`
(a present average `0.0` is also falsy in Python, but `0.0 or 0` is the
same number, so numerically this is exactly `getD 0`). -/
def orZero : Option ℚ → ℚ
  | none => 0
  | some x => x

/-- The local `score` function of `recommend_best_suppliers`:
`(quality * 0.5) - (delivery * 0.3) - (cost * 0.2)` with each missing
average replaced by `0`. -/
def score (s : Supplier) : ℚ :=
  orZero (average_quality s) * (5/10)
    - orZero (average_delivery_time s) * (3/10)
    - orZero (average_cost s) * (2/10)

/-- The sort relation of `sorted(suppliers, key=score, reverse=True)`:
descending by score. -/
def scoreGE (a b : Supplier) : Prop := score b ≤ score a

instance : DecidableRel scoreGE := fun a b =>
  inferInstanceAs (Decidable (score b ≤ score a))

/-- Embeds `recommend_best_suppliers(suppliers)`: Python's `sorted` with
`reverse=True` is the stable descending sort by the key, which is
insertion sort with the reflexive descending relation. -/
def recommend_best_suppliers (suppliers : List Supplier) : List Supplier :=
  List.insertionSort scoreGE suppliers

/-- A sequence of `add_sale` calls applied to a product, one per
(timestamp, quantity) pair. -/
def applySales (p : Product) (ops : List (ℕ × ℤ)) : Product :=
  ops.foldl (fun q op => add_sale q op.1 op.2) p

/-- The product of the example usage in `inventory.py`:
`Product("A1", "Apple", 7)` with sales 10, 15, 12. -/
def apple : Product :=
  add_sale (add_sale (add_sale (mkProduct "A1" "Apple" 7) 0 10) 1 15) 2 12

/-- The supplier of the spec's end-to-end example: deliveries `[2, 3]`,
costs `[100, 120]`, quality `[5, 4]`. -/
def supA : Supplier :=
  record_delivery (record_delivery (mkSupplier "S1" "A") 2 100 5) 3 120 4

/-- The JSON body of a typical non-200 OpenWeatherMap response. -/
def jsonNotFound : JsonData :=
  { message := some "city not found", mainTemp := none, mainHumidity := none,
    weatherMain := none, weatherDescr := none }

/-!  Helper lemmas  -/

theorem ceil_nonpos_of_nonpos {q : ℚ} (h : q ≤ 0) : ⌈q⌉ ≤ 0 :=
  Int.ceil_le.mpr (by exact_mod_cast h)

theorem pyTrunc_mono {a b : ℚ} (h : a ≤ b) : pyTrunc a ≤ pyTrunc b := by
  unfold pyTrunc
  split <;> split
  · exact Int.floor_le_floor h
  · rename_i ha hb
    exact absurd (le_trans ha h) hb
  · rename_i ha hb
    exact le_trans (ceil_nonpos_of_nonpos (le_of_not_le ha)) (Int.floor_nonneg.mpr hb)
  · exact Int.ceil_le_ceil h

theorem pyTrunc_nonpos {q : ℚ} (h : q ≤ 0) : pyTrunc q ≤ 0 := by
  unfold pyTrunc
  split
  · exact Int.floor_nonpos h
  · exact ceil_nonpos_of_nonpos h

theorem pyTrunc_cast_le {q : ℚ} (h : 0 ≤ q) : ((pyTrunc q : ℤ) : ℚ) ≤ q := by
  unfold pyTrunc
  rw [if_pos h]
  exact Int.floor_le q

theorem recentSales_length (p : Product) :
    (recentSales p).length = p.sales_history.length - (p.sales_history.length - 30) := by
  simp [recentSales]

theorem recentSales_ne_nil {p : Product} (h : p.sales_history ≠ []) :
    recentSales p ≠ [] := by
  have hl : 0 < p.sales_history.length := List.length_pos.mpr h
  have := recentSales_length p
  have : 0 < (recentSales p).length := by omega
  exact List.length_pos.mp this

theorem recentSales_subset (p : Product) : recentSales p ⊆ p.sales_history :=
  List.drop_subset _ _

theorem get_forecast_noloc_nonneg (p : Product) (days : ℤ) :
    0 ≤ get_forecast_noloc p days := by
  unfold get_forecast_noloc
  split
  · exact le_refl 0
  · split
    · exact le_refl 0
    · exact le_trans (by norm_num) (le_max_left 1 _)

theorem avgWithTrend_nonneg (recent : List (ℕ × ℤ))
    (h : ∀ x ∈ recent, 0 ≤ x.2) : 0 ≤ avgWithTrend recent := by
  have hmap : ∀ l : List (ℕ × ℤ), l ⊆ recent → (0 : ℤ) ≤ (l.map (fun s => s.2)).sum := by
    intro l hl
    apply List.sum_nonneg
    intro y hy
    obtain ⟨x, hx, rfl⟩ := List.mem_map.mp hy
    exact h x (hl hx)
  have havg : (0 : ℚ) ≤ (((recent.map (fun s => s.2)).sum : ℤ) : ℚ) / (recent.length : ℚ) := by
    apply div_nonneg
    · exact_mod_cast hmap recent (fun x hx => hx)
    · positivity
  simp only [avgWithTrend]
  split
  · apply mul_nonneg havg
    split
    · apply div_nonneg
      · exact_mod_cast hmap _ (List.drop_subset _ _)
      · rename_i hpos
        exact_mod_cast le_of_lt hpos
    · norm_num
  · exact havg

theorem bufferFactor_nonneg (p : Product) (days : ℤ) : 0 ≤ bufferFactor p days := by
  unfold bufferFactor
  split <;> norm_num

theorem applySales_sales_history (p : Product) (ops : List (ℕ × ℤ)) :
    (applySales p ops).sales_history = p.sales_history ++ ops := by
  induction ops generalizing p with
  | nil => simp [applySales]
  | cons o os ih =>
    simp only [applySales, List.foldl_cons] at ih ⊢
    rw [ih]
    simp [add_sale]

theorem applySales_inventory (p : Product) (ops : List (ℕ × ℤ)) :
    (applySales p ops).inventory = p.inventory - (ops.map (fun r => r.2)).sum := by
  induction ops generalizing p with
  | nil => simp [applySales]
  | cons o os ih =>
    simp only [applySales, List.foldl_cons] at ih ⊢
    rw [ih]
    simp [add_sale]
    ring

/-!  Claim theorems  -/

/-- C10: calling `get_forecast` with `location = ""` performs no weather
lookup and agrees with the call with no location, for every product,
horizon and behaviour of the HTTP layer (`if location:` is false for the
empty string). -/
theorem C10_empty_location_like_none (p : Product) (days : ℤ)
    (env : String → HttpOutcome) :
    get_forecast p days (some "") env = get_forecast p days none env := by
  simp [get_forecast, locTruthy]

/-- C9: starting from the constructor and applying any sequence of
`add_sale` operations, `inventory` always equals the negated sum of the
quantities recorded in `sales_history`; in particular a fresh product has
empty history and inventory `0`. -/
theorem C9_inventory_negated_sales_sum (id name : String) (shelf : ℤ)
    (cat : Option String) (ops : List (ℕ × ℤ)) :
    (applySales (mkProduct id name shelf cat) ops).inventory =
      -(((applySales (mkProduct id name shelf cat) ops).sales_history.map
          (fun r => r.2)).sum) ∧
    (mkProduct id name shelf cat).sales_history = [] ∧
    (mkProduct id name shelf cat).inventory = 0 := by
  refine ⟨?_, rfl, rfl⟩
  rw [applySales_inventory, applySales_sales_history]
  simp [mkProduct]

/-- C4: the buffer factor is `1.1` exactly when `horizonDays ≤
shelfLifeDays` and `1.2` exactly when `horizonDays > shelfLifeDays`;
at the boundary `horizonDays = shelfLifeDays` gives `1.1` and
`shelfLifeDays + 1` gives `1.2`; and the pre-clamp forecast is the
truncated product of the trend-adjusted average, the horizon and this
buffer factor. -/
theorem C4_buffer_factor_boundary (p : Product) (days : ℤ) :
    (bufferFactor p days = 11/10 ↔ days ≤ p.shelf_life_days) ∧
    (bufferFactor p days = 12/10 ↔ p.shelf_life_days < days) ∧
    bufferFactor p p.shelf_life_days = 11/10 ∧
    bufferFactor p (p.shelf_life_days + 1) = 12/10 ∧
    forecastPre p days =
      pyTrunc (avgWithTrend (recentSales p) * (days : ℚ) * bufferFactor p days) := by
  refine ⟨?_, ?_, ?_, ?_, rfl⟩
  · unfold bufferFactor
    by_cases hlt : p.shelf_life_days < days
    · rw [if_pos hlt]
      constructor
      · intro h
        norm_num at h
      · intro h
        exact absurd h (not_le.mpr hlt)
    · rw [if_neg hlt]
      simp [not_lt.mp hlt]
  · unfold bufferFactor
    by_cases hlt : p.shelf_life_days < days
    · rw [if_pos hlt]
      simp [hlt]
    · rw [if_neg hlt]
      constructor
      · intro h
        norm_num at h
      · intro h
        exact absurd h hlt
  · simp [bufferFactor]
  · simp [bufferFactor]

/-- C2: with no location, `get_forecast` returns `0` exactly when the
sales history is empty, and for a non-empty history and horizon at least
`1` the result is at least `1` (the `max(1, ...)` clamp applies only on
the non-empty path). -/
theorem C2_zero_iff_empty_history (p : Product) (days : ℤ) (hd : 1 ≤ days) :
    (get_forecast_noloc p days = 0 ↔ p.sales_history = []) ∧
    (p.sales_history ≠ [] → 1 ≤ get_forecast_noloc p days) := by
  by_cases hp : p.sales_history = []
  · simp [get_forecast_noloc, hp]
  · have hr := recentSales_ne_nil hp
    have h1 : (1 : ℤ) ≤ max 1 (forecastPre p days) := le_max_left 1 _
    simp only [get_forecast_noloc, if_neg hp, if_neg hr]
    refine ⟨⟨fun h => ?_, fun h => absurd h hp⟩, fun _ => h1⟩
    omega

/-- C2 witness: the example product (sales 10, 15, 12) at horizon 7. -/
theorem C2_witness :
    (1 : ℤ) ≤ 7 ∧ apple.sales_history ≠ [] ∧ 1 ≤ get_forecast_noloc apple 7 :=
  ⟨by decide, by decide, (C2_zero_iff_empty_history apple 7 (by decide)).2 (by decide)⟩

/-- C8: each average is the arithmetic mean of its sequence and is the
`None` sentinel exactly when that sequence is empty, and the ranking
score is `0.5 * avgQuality - 0.3 * avgDeliveryTime - 0.2 * avgCost`
with each missing average replaced by `0`. -/
theorem C8_averages_and_score (s : Supplier) :
    (average_delivery_time s = none ↔ s.delivery_timelines = []) ∧
    (average_cost s = none ↔ s.costs = []) ∧
    (average_quality s = none ↔ s.quality_ratings = []) ∧
    (s.delivery_timelines ≠ [] →
      average_delivery_time s =
        some (s.delivery_timelines.sum / (s.delivery_timelines.length : ℚ))) ∧
    (s.costs ≠ [] →
      average_cost s = some (s.costs.sum / (s.costs.length : ℚ))) ∧
    (s.quality_ratings ≠ [] →
      average_quality s =
        some (s.quality_ratings.sum / (s.quality_ratings.length : ℚ))) ∧
    score s = orZero (average_quality s) * (5/10)
      - orZero (average_delivery_time s) * (3/10)
      - orZero (average_cost s) * (2/10) := by
  refine ⟨?_, ?_, ?_, ?_, ?_, ?_, rfl⟩ <;>
    first
      | (unfold average_delivery_time
         split <;> simp_all)
      | (unfold average_cost
         split <;> simp_all)
      | (unfold average_quality
         split <;> simp_all)

/-- C8 witness: the spec's example supplier (deliveries `[2,3]`,
costs `[100,120]`, quality `[5,4]`). -/
theorem C8_witness :
    supA.delivery_timelines ≠ [] ∧
    average_delivery_time supA =
      some (supA.delivery_timelines.sum / (supA.delivery_timelines.length : ℚ)) :=
  ⟨by decide, (C8_averages_and_score supA).2.2.2.1 (by decide)⟩

theorem get_weather_forecast_non200 (statusCode : ℤ) (data : JsonData)
    (h : statusCode ≠ 200) :
    get_weather_forecast (HttpOutcome.response statusCode data) =
      Except.ok (WeatherDict.errorDict (data.message.getD "Failed to fetch weather")) := by
  show (if statusCode ≠ 200 then
      Except.ok (WeatherDict.errorDict (data.message.getD "Failed to fetch weather"))
    else
      match data.mainTemp, data.mainHumidity, data.weatherMain, data.weatherDescr with
      | some t, some h, some m, some d => Except.ok (WeatherDict.weatherDict t h m d)
      | _, _, _, _ => Except.error "KeyError") = _
  rw [if_pos h]

theorem apple_forecastPre_eval : forecastPre apple 7 = 94 := by
  have hr : recentSales apple = [(0, 10), (1, 15), (2, 12)] := by decide
  have havg : avgWithTrend (recentSales apple) = 37/3 := by
    rw [hr]
    norm_num [avgWithTrend]
  have hbuf : bufferFactor apple 7 = 11/10 := by
    have hs : apple.shelf_life_days = 7 := by decide
    simp [bufferFactor, hs]
  unfold forecastPre
  rw [havg, hbuf]
  unfold pyTrunc
  rw [if_pos (by norm_num), Int.floor_eq_iff]
  constructor <;> norm_num

theorem apple_forecast_noloc_eval : get_forecast_noloc apple 7 = 94 := by
  unfold get_forecast_noloc
  rw [if_neg (by decide), if_neg (by decide), apple_forecastPre_eval]
  norm_num

/-- C1 counterexample: when the HTTP layer raises (a network error),
`get_forecast` with a location does not return the non-weather-adjusted
value; the error propagates out as an exception, contradicting the
claim that weather-lookup failure never propagates. -/
theorem C1_counterexample :
    get_forecast apple 7 (some "London")
        (fun _ => HttpOutcome.networkError "connection error") =
      Except.error "connection error" ∧
    get_forecast_noloc apple 7 = 94 :=
  ⟨rfl, apple_forecast_noloc_eval⟩

/-- C1 (amended): when the weather lookup completes with a non-200 HTTP
response (so `get_weather_forecast` returns the `{"error": ...}`
dictionary with no `"temperature"` key), `get_forecast` returns exactly
the non-weather-adjusted value and no error propagates; only a raised
exception from the HTTP layer (network error, non-JSON body) or a 200
response missing the temperature field escapes `get_forecast`. -/
theorem C1_non200_degrades_silently (p : Product) (days : ℤ) (loc : String)
    (env : String → HttpOutcome) (statusCode : ℤ) (data : JsonData)
    (henv : env loc = HttpOutcome.response statusCode data)
    (h200 : statusCode ≠ 200) :
    get_forecast p days (some loc) env = Except.ok (get_forecast_noloc p days) := by
  unfold get_forecast get_forecast_noloc
  by_cases hp : p.sales_history = []
  · simp [hp]
  · by_cases hr : recentSales p = []
    · simp [hp, hr]
    · simp only [if_neg hp, if_neg hr]
      by_cases hloc : locTruthy (some loc)
      · rw [if_pos hloc]
        rw [Option.getD_some, henv, get_weather_forecast_non200 statusCode data h200]
        rfl
      · rw [if_neg hloc]

/-- Spec wording for the trend claim: `avgSales` = sum(quantity over
recent) / count(recent). -/
def specAvg (recent : List (ℕ × ℤ)) : ℚ :=
  (((recent.map (fun s => s.2)).sum : ℤ) : ℚ) / (recent.length : ℚ)

/-- Spec wording for the trend claim: split `recent` at index
`floor(n/2)`; `trendFactor` = second-half sum / first-half sum when the
first-half sum is positive, else `1`. -/
def specTrendFactor (recent : List (ℕ × ℤ)) : ℚ :=
  let firstSum : ℤ := ((recent.take (recent.length / 2)).map (fun s => s.2)).sum
  let secondSum : ℤ := ((recent.drop (recent.length / 2)).map (fun s => s.2)).sum
  if 0 < firstSum then (secondSum : ℚ) / (firstSum : ℚ) else 1

/-- C3: the recent window is the last `min(30, n)` history entries, and
the trend factor (second-half over first-half sum, halves split at
`floor(n/2)`, `1` when the first-half sum is not positive) multiplies
the average exactly when the window has at least 14 entries; with 13 or
fewer the average is used unchanged. -/
theorem C3_trend_applied_iff_14 (p : Product) (days : ℤ)
    (hne : p.sales_history ≠ []) :
    (recentSales p).length = min 30 p.sales_history.length ∧
    (14 ≤ (recentSales p).length →
      get_forecast_noloc p days =
        max 1 (pyTrunc (specAvg (recentSales p) * specTrendFactor (recentSales p) *
          (days : ℚ) * bufferFactor p days))) ∧
    ((recentSales p).length ≤ 13 →
      get_forecast_noloc p days =
        max 1 (pyTrunc (specAvg (recentSales p) * (days : ℚ) * bufferFactor p days))) := by
  have hr := recentSales_ne_nil hne
  have hlen := recentSales_length p
  refine ⟨by omega, ?_, ?_⟩
  · intro h14
    simp only [get_forecast_noloc, if_neg hne, if_neg hr, forecastPre]
    have heq : avgWithTrend (recentSales p) =
        specAvg (recentSales p) * specTrendFactor (recentSales p) := by
      unfold avgWithTrend specAvg specTrendFactor
      rw [if_pos h14]
    rw [heq]
  · intro h13
    simp only [get_forecast_noloc, if_neg hne, if_neg hr, forecastPre]
    have heq : avgWithTrend (recentSales p) = specAvg (recentSales p) := by
      unfold avgWithTrend specAvg
      rw [if_neg (by omega)]
    rw [heq]

/-- A product with exactly 14 sales records, exercising the trend path. -/
def milk : Product :=
  applySales (mkProduct "M1" "Milk" 7)
    [(0, 5), (1, 6), (2, 7), (3, 5), (4, 6), (5, 7), (6, 5),
     (7, 8), (8, 9), (9, 8), (10, 9), (11, 10), (12, 9), (13, 10)]

/-- C3 witness: the trend branch on a 14-record product and the
no-trend branch on the 3-record example product. -/
theorem C3_witness :
    milk.sales_history ≠ [] ∧ 14 ≤ (recentSales milk).length ∧
    get_forecast_noloc milk 5 =
      max 1 (pyTrunc (specAvg (recentSales milk) * specTrendFactor (recentSales milk) *
        ((5 : ℤ) : ℚ) * bufferFactor milk 5)) ∧
    apple.sales_history ≠ [] ∧ (recentSales apple).length ≤ 13 ∧
    get_forecast_noloc apple 7 =
      max 1 (pyTrunc (specAvg (recentSales apple) * ((7 : ℤ) : ℚ) * bufferFactor apple 7)) :=
  ⟨by decide, by decide,
   (C3_trend_applied_iff_14 milk 5 (by decide)).2.1 (by decide),
   by decide, by decide,
   (C3_trend_applied_iff_14 apple 7 (by decide)).2.2 (by decide)⟩

theorem filter_orderedInsert_ne (c : ℚ) (a : Supplier) (l : List Supplier)
    (h : score a ≠ c) :
    (List.orderedInsert scoreGE a l).filter (fun s => decide (score s = c)) =
      l.filter (fun s => decide (score s = c)) := by
  induction l with
  | nil => simp [List.orderedInsert, h]
  | cons b l ih =>
    by_cases hab : scoreGE a b
    · rw [List.orderedInsert, if_pos hab]
      simp [List.filter_cons, h]
    · rw [List.orderedInsert, if_neg hab]
      simp only [List.filter_cons, ih]

theorem filter_orderedInsert_eq (a : Supplier) (l : List Supplier) :
    (List.orderedInsert scoreGE a l).filter (fun s => decide (score s = score a)) =
      a :: l.filter (fun s => decide (score s = score a)) := by
  induction l with
  | nil => simp [List.orderedInsert]
  | cons b l ih =>
    by_cases hab : scoreGE a b
    · rw [List.orderedInsert, if_pos hab]
      simp [List.filter_cons]
    · rw [List.orderedInsert, if_neg hab]
      have hbne : ¬(score b = score a) := by
        intro hbe
        exact hab (le_of_eq hbe)
      simp only [List.filter_cons, ih]
      simp [hbne]

/-- C6: `recommend_best_suppliers` returns the input sorted descending
by score, as a permutation of the input, and stably: for every score
value, the suppliers attaining it appear in the output in their input
order. -/
theorem C6_rank_stable_descending (l : List Supplier) (c : ℚ) :
    List.Sorted scoreGE (recommend_best_suppliers l) ∧
    List.Perm (recommend_best_suppliers l) l ∧
    (recommend_best_suppliers l).filter (fun s => decide (score s = c)) =
      l.filter (fun s => decide (score s = c)) := by
  refine ⟨?_, List.perm_insertionSort scoreGE l, ?_⟩
  · haveI : IsTotal Supplier scoreGE := ⟨fun a b => le_total (score b) (score a)⟩
    haveI : IsTrans Supplier scoreGE := ⟨fun a b d h1 h2 => le_trans h2 h1⟩
    exact List.sorted_insertionSort scoreGE l
  · unfold recommend_best_suppliers
    induction l with
    | nil => rfl
    | cons x xs ih =>
      simp only [List.insertionSort]
      by_cases hx : score x = c
      · subst hx
        rw [filter_orderedInsert_eq, ih, List.filter_cons]
        simp
      · rw [filter_orderedInsert_ne c x _ hx, ih, List.filter_cons]
        simp [hx]

/-- C1 witness: the example product, a 404 "city not found" response. -/
theorem C1_witness :
    (404 : ℤ) ≠ 200 ∧
    get_forecast apple 7 (some "London")
        (fun _ => HttpOutcome.response 404 jsonNotFound) =
      Except.ok (get_forecast_noloc apple 7) :=
  ⟨by decide,
   C1_non200_degrades_silently apple 7 "London"
     (fun _ => HttpOutcome.response 404 jsonNotFound) 404 jsonNotFound rfl (by decide)⟩

/-- C5: for every product with positive shelf life and positive
horizon, the recommended order is a nonnegative integer that never
exceeds `forecast * shelfLifeDays / horizonDays`, where `forecast` is
the weather-free forecast. -/
theorem C5_order_within_shelf_cap (p : Product) (days : ℤ)
    (hd : 0 < days) (hs : 0 < p.shelf_life_days) :
    0 ≤ get_recommended_order p days ∧
    (get_recommended_order p days : ℚ) ≤
      (get_forecast_noloc p days : ℚ) * (p.shelf_life_days : ℚ) / (days : ℚ) := by
  have hf : (0 : ℤ) ≤ get_forecast_noloc p days := get_forecast_noloc_nonneg p days
  have hfq : (0 : ℚ) ≤ (get_forecast_noloc p days : ℚ) := by exact_mod_cast hf
  have hsq : (0 : ℚ) < (p.shelf_life_days : ℚ) := by exact_mod_cast hs
  have hdq : (0 : ℚ) < (days : ℚ) := by exact_mod_cast hd
  have hbound : (0 : ℚ) ≤
      (get_forecast_noloc p days : ℚ) * (p.shelf_life_days : ℚ) / (days : ℚ) := by
    positivity
  simp only [get_recommended_order]
  set f : ℤ := get_forecast_noloc p days with hfdef
  set csd : ℚ := if 0 < f then (p.inventory : ℚ) / ((f : ℚ) / (days : ℚ)) else 0 with hcsd
  set m : ℚ := min ((f : ℚ) - (p.inventory : ℚ))
    ((f : ℚ) * ((p.shelf_life_days : ℚ) / (days : ℚ))) with hmdef
  have hmb : m ≤ (f : ℚ) * (p.shelf_life_days : ℚ) / (days : ℚ) :=
    (min_le_right _ _).trans (le_of_eq (mul_div_assoc _ _ _).symm)
  split
  · refine ⟨le_refl 0, ?_⟩
    rw [Int.cast_zero]
    exact hbound
  · refine ⟨le_max_left 0 _, ?_⟩
    rw [Int.cast_max, Int.cast_zero]
    rcases le_total m 0 with hm | hm
    · have hle : ((pyTrunc m : ℤ) : ℚ) ≤ 0 := by exact_mod_cast pyTrunc_nonpos hm
      rw [max_eq_left hle]
      exact hbound
    · exact max_le hbound ((pyTrunc_cast_le hm).trans hmb)

/-- C5 witness: the example product at horizon 7. -/
theorem C5_witness :
    (0 : ℤ) < 7 ∧ (0 : ℤ) < apple.shelf_life_days ∧
    (0 ≤ get_recommended_order apple 7 ∧
      (get_recommended_order apple 7 : ℚ) ≤
        (get_forecast_noloc apple 7 : ℚ) * (apple.shelf_life_days : ℚ) / ((7 : ℤ) : ℚ)) :=
  ⟨by decide, by decide, C5_order_within_shelf_cap apple 7 (by decide) (by decide)⟩

/-- C7: with a non-empty history of nonnegative quantities and no
weather adjustment, the forecast is monotonically non-decreasing in the
horizon whenever the two horizons get the same buffer factor (the trend
factor depends only on the history, so it is automatically fixed). -/
theorem C7_monotone_in_horizon (p : Product) (h1 h2 : ℤ)
    (hne : p.sales_history ≠ [])
    (hq : ∀ x ∈ p.sales_history, 0 ≤ x.2)
    (h12 : h1 ≤ h2)
    (hside : bufferFactor p h1 = bufferFactor p h2) :
    get_forecast_noloc p h1 ≤ get_forecast_noloc p h2 := by
  have hr := recentSales_ne_nil hne
  have ha : 0 ≤ avgWithTrend (recentSales p) :=
    avgWithTrend_nonneg _ (fun x hx => hq x (recentSales_subset p hx))
  have hb : 0 ≤ bufferFactor p h2 := bufferFactor_nonneg p h2
  have h12q : (h1 : ℚ) ≤ (h2 : ℚ) := by exact_mod_cast h12
  simp only [get_forecast_noloc, if_neg hne, if_neg hr]
  apply max_le_max (le_refl 1)
  unfold forecastPre
  rw [hside]
  apply pyTrunc_mono
  calc avgWithTrend (recentSales p) * (h1 : ℚ) * bufferFactor p h2
      = avgWithTrend (recentSales p) * bufferFactor p h2 * (h1 : ℚ) := by ring
    _ ≤ avgWithTrend (recentSales p) * bufferFactor p h2 * (h2 : ℚ) :=
        mul_le_mul_of_nonneg_left h12q (mul_nonneg ha hb)
    _ = avgWithTrend (recentSales p) * (h2 : ℚ) * bufferFactor p h2 := by ring

/-- C7 witness: the example product at horizons 3 and 5, both within
the 7-day shelf life. -/
theorem C7_witness :
    apple.sales_history ≠ [] ∧ (∀ x ∈ apple.sales_history, 0 ≤ x.2) ∧
    (3 : ℤ) ≤ 5 ∧ bufferFactor apple 3 = bufferFactor apple 5 ∧
    get_forecast_noloc apple 3 ≤ get_forecast_noloc apple 5 := by
  have hside : bufferFactor apple 3 = bufferFactor apple 5 := by
    unfold bufferFactor
    rw [show apple.shelf_life_days = 7 from rfl]
    norm_num
  exact ⟨by decide, by decide, by decide, hside,
    C7_monotone_in_horizon apple 3 5 (by decide) (by decide) (by decide) hside⟩

end Inventory
